import Mathlib

/-!
Shallow embedding of the three operational scripts of this repository:

* `src/infrastructure/lambda/package/db-maintenance.py` — database maintenance
  handler: five check functions, CloudWatch metric emission, report generation.
* `src/infrastructure/lambda/package/rotate-secret.py` — the four-step secret
  rotation handler over a secrets store, plus password generation.
* `src/deploy_via_python.py` — the git deployment runner.

External effects (SQL queries, AWS API calls, randomness) are modelled as
explicit parameters: each check function takes the outcome of its external
calls as an `Except` value, the secrets store is an explicit state record,
randomness is a choice oracle, and the shuffle is an arbitrary permutation.
-/

namespace DbMaintenance

/-- Severity classification attached to each maintenance finding
(`'info' | 'warning' | 'critical'` strings in the Python source). -/
inductive Severity where
  | info
  | warning
  | critical
deriving DecidableEq, Repr

/-- Task status (`'completed' | 'failed'` strings in the Python source). -/
inductive TaskStatus where
  | completed
  | failed
deriving DecidableEq, Repr

/-- One maintenance task result dictionary.  `metrics = none` models the
absence of the `'metrics'` key; `error` models the `'error'` key of failed
results.  Presentation-only keys (`'issues'`, `'details'`, `'message'`) are
not observed by the report or the metric emission and are omitted. -/
structure TaskResult where
  task : String
  status : TaskStatus
  severity : Severity
  metrics : Option (List (String × Int))
  error : Option String
deriving DecidableEq, Repr

/-- Rows fetched by `analyze_database_performance`:
the slow-query list, the database size row, and the connection-count row. -/
structure PerfStats where
  slow_queries : List String
  database_size_bytes : Int
  total_connections : Int
  active_connections : Int
  idle_connections : Int
deriving DecidableEq, Repr

/-- Embedding of `analyze_database_performance` (db-maintenance.py lines 135-251), with the
outcome of its database calls passed in: `.error e` models an exception raised
by the external calls, caught by the function's own `except` clause. -/
def analyze_database_performance (outcome : Except String PerfStats) : TaskResult :=
  match outcome with
  | .error e =>
      { task := "performance_analysis", status := .failed, severity := .critical
        metrics := none, error := some e }
  | .ok d =>
      let severity := Severity.info
      let severity := if d.slow_queries ≠ [] then Severity.warning else severity
      let severity := if d.active_connections > 50 then Severity.warning else severity
      let severity :=
        if d.database_size_bytes > 100 * 1024 * 1024 * 1024 then Severity.warning else severity
      { task := "performance_analysis", status := .completed, severity := severity
        metrics := some [("slow_queries_count", (d.slow_queries.length : Int)),
                         ("database_size_bytes", d.database_size_bytes),
                         ("total_connections", d.total_connections),
                         ("active_connections", d.active_connections),
                         ("idle_connections", d.idle_connections)]
        error := none }

/-- Rows fetched by `optimize_database_statistics`: the tables that were
successfully `ANALYZE`d and the list of tables needing analysis. -/
structure StatsData where
  analyzed_tables : List String
  tables_to_analyze : List String
deriving DecidableEq, Repr

/-- Embedding of `optimize_database_statistics` (lines 253-318).  On success the result is
always `'completed'`/`'info'` and carries no `'metrics'` key. -/
def optimize_database_statistics (outcome : Except String StatsData) : TaskResult :=
  match outcome with
  | .error e =>
      { task := "statistics_optimization", status := .failed, severity := .critical
        metrics := none, error := some e }
  | .ok _ =>
      { task := "statistics_optimization", status := .completed, severity := .info
        metrics := none, error := none }

/-- Row counts of the four `DELETE` statements of `cleanup_old_data`. -/
structure CleanupData where
  audit_logs_deleted : Int
  cache_entries_deleted : Int
  jobs_deleted : Int
  sessions_deleted : Int
deriving DecidableEq, Repr

/-- Embedding of `cleanup_old_data` (lines 320-406): severity `'warning'` when the total
deleted row count exceeds 10000, else `'info'`; no `'metrics'` key. -/
def cleanup_old_data (outcome : Except String CleanupData) : TaskResult :=
  match outcome with
  | .error e =>
      { task := "data_cleanup", status := .failed, severity := .critical
        metrics := none, error := some e }
  | .ok d =>
      let total_deleted := d.audit_logs_deleted + d.cache_entries_deleted +
        d.jobs_deleted + d.sessions_deleted
      let severity := if total_deleted > 10000 then Severity.warning else Severity.info
      { task := "data_cleanup", status := .completed, severity := severity
        metrics := none, error := none }

/-- Rows fetched by `analyze_disk_usage`: the database size, the per-table
total sizes in bytes (column `t[5]` of each fetched row), and the
unused-index rows. -/
structure DiskData where
  database_size_bytes : Int
  table_size_bytes : List Int
  unused_indexes : List String
deriving DecidableEq, Repr

/-- Embedding of `analyze_disk_usage` (lines 408-514). -/
def analyze_disk_usage (outcome : Except String DiskData) : TaskResult :=
  match outcome with
  | .error e =>
      { task := "disk_usage_analysis", status := .failed, severity := .critical
        metrics := none, error := some e }
  | .ok d =>
      let severity := Severity.info
      let severity :=
        if d.database_size_bytes > 500 * 1024 * 1024 * 1024 then Severity.warning else severity
      let severity :=
        if d.unused_indexes.length > 5 then
          (if severity = Severity.info then Severity.warning else severity)
        else severity
      let large_tables := d.table_size_bytes.filter (fun t => t > 50 * 1024 * 1024 * 1024)
      let severity :=
        if large_tables ≠ [] then
          (if severity = Severity.info then Severity.warning else severity)
        else severity
      { task := "disk_usage_analysis", status := .completed, severity := severity
        metrics := some [("total_database_size_bytes", d.database_size_bytes),
                         ("large_tables_count", (large_tables.length : Int)),
                         ("unused_indexes_count", (d.unused_indexes.length : Int))]
        error := none }

/-- Rows fetched by `check_blocking_queries`: the blocking-query rows and the
long-running-query rows. -/
structure BlockingData where
  blocking_queries : List String
  long_queries : List String
deriving DecidableEq, Repr

/-- Embedding of `check_blocking_queries` (lines 516-618): `'critical'` when any blocking
query is found, `'warning'` when only long-running queries are found. -/
def check_blocking_queries (outcome : Except String BlockingData) : TaskResult :=
  match outcome with
  | .error e =>
      { task := "blocking_queries_check", status := .failed, severity := .critical
        metrics := none, error := some e }
  | .ok d =>
      let severity := Severity.info
      let severity := if d.blocking_queries ≠ [] then Severity.critical else severity
      let severity :=
        if d.long_queries ≠ [] then
          (if severity = Severity.info then Severity.warning else severity)
        else severity
      { task := "blocking_queries_check", status := .completed, severity := severity
        metrics := some [("blocking_queries_count", (d.blocking_queries.length : Int)),
                         ("long_running_queries_count", (d.long_queries.length : Int))]
        error := none }

/-- The maintenance report built by `generate_maintenance_report`
(lines 654-682); the `'summary'` sub-dictionary is flattened into fields. -/
structure MaintenanceReport where
  timestamp : String
  overall_status : String
  total_tasks : Nat
  completed_tasks : Nat
  failed_tasks : Nat
  critical_issues : Nat
  warning_issues : Nat
  tasks : List TaskResult
deriving DecidableEq, Repr

/-- Embedding of `generate_maintenance_report` (lines 654-682).  `timestamp` stands for
`datetime.utcnow().isoformat()`. -/
def generate_maintenance_report (timestamp : String)
    (maintenance_results : List TaskResult) : MaintenanceReport :=
  let total_tasks := maintenance_results.length
  let completed_tasks := (maintenance_results.filter (fun r => r.status = .completed)).length
  let failed_tasks := (maintenance_results.filter (fun r => r.status = .failed)).length
  let critical_issues := maintenance_results.filter (fun r => r.severity = .critical)
  let warning_issues := maintenance_results.filter (fun r => r.severity = .warning)
  let overall_status :=
    if critical_issues ≠ [] then "critical"
    else if warning_issues ≠ [] then "warning"
    else "healthy"
  { timestamp := timestamp, overall_status := overall_status
    total_tasks := total_tasks, completed_tasks := completed_tasks
    failed_tasks := failed_tasks, critical_issues := critical_issues.length
    warning_issues := warning_issues.length, tasks := maintenance_results }

/-- One CloudWatch metric datum as assembled by `update_custom_metrics`. -/
structure MetricDatum where
  metricName : String
  value : Int
  unit : String
  dimension_db_instance : String
deriving DecidableEq, Repr

/-- The metric list assembled by the loop of `update_custom_metrics`
(lines 625-640): only results with `status == 'completed'` that carry a
`'metrics'` key contribute. -/
def custom_metrics_payload (db_instance_id : String)
    (maintenance_results : List TaskResult) : List MetricDatum :=
  maintenance_results.flatMap (fun result =>
    if result.status = .completed then
      match result.metrics with
      | some ms => ms.map (fun m =>
          { metricName := "DB_" ++ m.1, value := m.2, unit := "Count"
            dimension_db_instance := db_instance_id })
      | none => []
    else [])

/-- Embedding of `update_custom_metrics` (lines 620-652).  The CloudWatch call is a
parameter `put_metric_data`; any exception it raises is caught by the
function's own `except` clause and only logged, hence the `Unit` result in
both branches. -/
def update_custom_metrics (db_instance_id : String)
    (maintenance_results : List TaskResult)
    (put_metric_data : List MetricDatum → Except String Unit) : Unit :=
  let metrics := custom_metrics_payload db_instance_id maintenance_results
  if metrics ≠ [] then
    match put_metric_data metrics with
    | .ok _ => ()
    | .error _ => ()
  else ()

/-- Outcomes of all external calls made during one maintenance invocation:
one `Except` per check function and the report timestamp. -/
structure MaintenanceWorld where
  perf : Except String PerfStats
  stats : Except String StatsData
  cleanup : Except String CleanupData
  disk : Except String DiskData
  blocking : Except String BlockingData
  timestamp : String
deriving Repr

/-- The value returned by the maintenance `lambda_handler`. -/
structure MaintenanceResponse where
  statusCode : Nat
  results : List TaskResult
  report : MaintenanceReport
deriving DecidableEq, Repr

/-- The maintenance `lambda_handler` (db-maintenance.py lines 24-91) from the
point where the connection details are resolved: runs the five check
functions in order, appending each result, emits custom metrics, generates
the report, and returns status code 200 with results and report. -/
def lambda_handler (db_instance_id : String) (w : MaintenanceWorld)
    (put_metric_data : List MetricDatum → Except String Unit) : MaintenanceResponse :=
  let maintenance_results : List TaskResult :=
    [analyze_database_performance w.perf,
     optimize_database_statistics w.stats,
     cleanup_old_data w.cleanup,
     analyze_disk_usage w.disk,
     check_blocking_queries w.blocking]
  let _ := update_custom_metrics db_instance_id maintenance_results put_metric_data
  let report := generate_maintenance_report w.timestamp maintenance_results
  { statusCode := 200, results := maintenance_results, report := report }

end DbMaintenance

namespace RotateSecret

/-- Embedding of `PASSWORD_LENGTH` (rotate-secret.py line 24). -/
def PASSWORD_LENGTH : Nat := 32

/-- Embedding of `string.ascii_lowercase`. -/
def ascii_lowercase : List Char := "abcdefghijklmnopqrstuvwxyz".toList

/-- Embedding of `string.ascii_uppercase`. -/
def ascii_uppercase : List Char := "ABCDEFGHIJKLMNOPQRSTUVWXYZ".toList

/-- Embedding of `string.digits`. -/
def string_digits : List Char := "0123456789".toList

/-- The symbol class `"!@#$%^&*"` used by `generate_password`. -/
def password_symbols : List Char := "!@#$%^&*".toList

/-- Embedding of `PASSWORD_CHARSET = string.ascii_letters + string.digits + "!@#$%^&*"`
(rotate-secret.py line 25). -/
def PASSWORD_CHARSET : List Char :=
  ascii_lowercase ++ ascii_uppercase ++ string_digits ++ password_symbols

/-- Embedding of `generate_password` (rotate-secret.py lines 344-363).  `secrets.choice`
is modelled by the oracle `choice`, indexed by the position of the call so
successive draws may differ; `secrets.SystemRandom().shuffle` is the
function `shuffle`.  The theorems assume only that `choice` picks an element
of its argument and that `shuffle` permutes its argument. -/
def generate_password (choice : Nat → List Char → Char)
    (shuffle : List Char → List Char) : String :=
  let password := [choice 0 ascii_lowercase,
                   choice 1 ascii_uppercase,
                   choice 2 string_digits,
                   choice 3 password_symbols]
  let password := password ++
    (List.range (PASSWORD_LENGTH - 4)).map (fun i => choice (4 + i) PASSWORD_CHARSET)
  String.mk (shuffle password)

/-- One version in the secrets store: its version id, its staging labels
(`"AWSCURRENT"`, `"AWSPENDING"`), and its secret string parsed as a
key-value record. -/
structure SecretVersion where
  versionId : String
  stages : List String
  secretString : List (String × String)
deriving DecidableEq, Repr

/-- The secrets store state for one secret: its list of versions. -/
structure SecretsStore where
  versions : List SecretVersion
deriving DecidableEq, Repr

/-- Python `dict` lookup on the parsed secret string. -/
def lookupField (fields : List (String × String)) (key : String) : Option String :=
  match fields.find? (fun kv => kv.1 = key) with
  | some kv => some kv.2
  | none => none

/-- Python `dict` update `d[key] = value`: replaces the value of an existing
key in place, appends a new key at the end. -/
def setField (fields : List (String × String)) (key value : String) :
    List (String × String) :=
  match fields with
  | [] => [(key, value)]
  | kv :: rest => if kv.1 = key then (key, value) :: rest else kv :: setField rest key value

/-- Embedding of `get_secret_value(SecretId, VersionStage=stage)`: returns the version
carrying the staging label `stage`, or `none` (ResourceNotFoundException). -/
def get_secret_value_by_stage (s : SecretsStore) (stage : String) :
    Option SecretVersion :=
  s.versions.find? (fun v => v.stages.contains stage)

/-- Embedding of `get_secret_value(SecretId, VersionStage=stage, VersionId=versionId)`:
returns the version only when one exists with that id carrying that label. -/
def get_secret_value_by_id_stage (s : SecretsStore) (versionId stage : String) :
    Option SecretVersion :=
  s.versions.find? (fun v => v.versionId = versionId ∧ v.stages.contains stage)

/-- Embedding of `put_secret_value(..., ClientRequestToken=token,
VersionStages=['AWSPENDING'])`: creates a version with id `token` staged
`AWSPENDING`, moving the `AWSPENDING` label off any other version. -/
def put_secret_value (s : SecretsStore) (token : String)
    (data : List (String × String)) : SecretsStore :=
  { versions :=
      { versionId := token, stages := ["AWSPENDING"], secretString := data } ::
        s.versions.map (fun v =>
          { v with stages := v.stages.filter (fun st => st ≠ "AWSPENDING") }) }

/-- Embedding of `create_secret` (rotate-secret.py lines 69-112).  The generated password
is the parameter `new_password` (the randomness of `generate_password` is
handled separately).  Returns the updated store, or the error propagated
when no `AWSCURRENT` version exists. -/
def create_secret (s : SecretsStore) (client_request_token : String)
    (new_password : String) : Except String SecretsStore :=
  match get_secret_value_by_id_stage s client_request_token "AWSPENDING" with
  | some _ => .ok s
  | none =>
    match get_secret_value_by_stage s "AWSCURRENT" with
    | none => .error "ResourceNotFoundException"
    | some current_secret =>
        let new_secret_data := setField current_secret.secretString "password" new_password
        .ok (put_secret_value s client_request_token new_secret_data)

/-- The engine-specific database routine selected by `set_secret` or
`test_secret`. -/
inductive DbRoutine where
  | postgres
  | mysql
deriving DecidableEq, Repr

/-- The engine dispatch of `set_secret` (rotate-secret.py lines 135-145):
with no `'engine'` key the PostgreSQL routine is the default; an
unsupported engine raises `ValueError`. -/
def choose_engine_routine (secret_data : List (String × String)) :
    Except String DbRoutine :=
  match lookupField secret_data "engine" with
  | some engine =>
      if engine = "postgres" ∨ engine = "postgresql" then .ok .postgres
      else if engine = "mysql" then .ok .mysql
      else .error ("Unsupported database engine: " ++ engine)
  | none => .ok .postgres

/-- Embedding of `set_secret` (rotate-secret.py lines 114-151), up to the choice of the
engine routine (the database call itself is external): reads the pending
and current versions and dispatches on the current record's `'engine'`. -/
def set_secret (s : SecretsStore) (client_request_token : String) :
    Except String DbRoutine :=
  match get_secret_value_by_id_stage s client_request_token "AWSPENDING" with
  | none => .error "ResourceNotFoundException"
  | some _pending =>
    match get_secret_value_by_stage s "AWSCURRENT" with
    | none => .error "ResourceNotFoundException"
    | some current_secret => choose_engine_routine current_secret.secretString

/-- Embedding of `test_secret` (rotate-secret.py lines 153-183), up to the choice of the
engine routine: reads the pending version and dispatches on its `'engine'`. -/
def test_secret (s : SecretsStore) (client_request_token : String) :
    Except String DbRoutine :=
  match get_secret_value_by_id_stage s client_request_token "AWSPENDING" with
  | none => .error "ResourceNotFoundException"
  | some pending_secret => choose_engine_routine pending_secret.secretString

/-- Embedding of `get_current_version_id` (rotate-secret.py lines 365-377). -/
def get_current_version_id (s : SecretsStore) : Except String String :=
  match get_secret_value_by_stage s "AWSCURRENT" with
  | some v => .ok v.versionId
  | none => .error "ResourceNotFoundException"

/-- Embedding of `finish_secret` (rotate-secret.py lines 185-207) as
written.  The function first evaluates
`RemoveFromVersionId=get_current_version_id(secret_arn)` (whose error, if
any, propagates), then calls `update_secret_version_stage` passing
`ClientRequestToken=...` — but that API operation has no
`ClientRequestToken` parameter (its move target is named
`MoveToVersionId`), so boto3's client-side parameter validation raises
`ParamValidationError` on every invocation, before any version stage is
moved.  The handler's except clause sends a failure notification and
re-raises, so `finish_secret` always results in an error and never
relabels a version. -/
def finish_secret (s : SecretsStore) (client_request_token : String) :
    Except String SecretsStore :=
  match get_current_version_id s with
  | .error e => .error e
  | .ok _current_version_id =>
      .error "ParamValidationError: Unknown parameter in input: ClientRequestToken"

end RotateSecret

namespace DeployRunner

/-- Success/failure outcomes of the shell commands `main` may run, in
program order: the initial porcelain status query, `git add -A`, the commit,
the plain `git status` re-query after a failed commit, and the push.
`run_command` (deploy_via_python.py lines 6-19) returns `True` on exit
status 0 and `False` on `CalledProcessError`. -/
structure GitOutcomes where
  status_porcelain : Bool
  add : Bool
  commit : Bool
  status_requery : Bool
  push : Bool
deriving DecidableEq, Repr

/-- The commit command built by `main` (deploy_via_python.py lines 40-58);
the fixed multi-line message body after the first line is elided here since
no behaviour of `main` depends on the message text. -/
def commit_command : String :=
  "git commit -m \"fix: comprehensive SSR and production deployment fixes ...\""

/-- Embedding of `main` (deploy_via_python.py lines 21-68), modelled over the outcomes of
its shell commands.  Returns the exit status together with the trace of
commands actually executed, each paired with its outcome.  The initial
status query's result is not inspected; a failed `git add -A` returns 1; a
failed commit is only logged and followed by a `git status` re-query; a
failed push returns 1; otherwise 0. -/
def main (o : GitOutcomes) : Int × List (String × Bool) :=
  let trace := [("git status --porcelain", o.status_porcelain)]
  let trace := trace ++ [("git add -A", o.add)]
  if o.add = false then (1, trace)
  else
    let trace := trace ++ [(commit_command, o.commit)]
    let trace :=
      if o.commit = false then trace ++ [("git status", o.status_requery)] else trace
    let trace := trace ++ [("git push origin main", o.push)]
    if o.push = false then (1, trace) else (0, trace)

end DeployRunner

/-! ## Helper lemmas -/

/-- A filter is nonempty exactly when some member satisfies the predicate. -/
theorem filter_ne_nil_iff_exists {α : Type} (p : α → Bool) (l : List α) :
    l.filter p ≠ [] ↔ ∃ x ∈ l, p x = true := by
  induction l with
  | nil => simp
  | cons a l ih =>
    by_cases h : p a = true
    · simp [List.filter_cons, h]
    · have h' : p a = false := by revert h; cases p a <;> simp
      have hfc : (a :: l).filter p = l.filter p := by simp [List.filter_cons, h']
      rw [hfc, ih]
      constructor
      · rintro ⟨x, hx, hpx⟩
        exact ⟨x, List.mem_cons_of_mem a hx, hpx⟩
      · rintro ⟨x, hx, hpx⟩
        rcases List.mem_cons.mp hx with rfl | hx'
        · rw [h'] at hpx
          cases hpx
        · exact ⟨x, hx', hpx⟩

/-- A concrete world in which every check succeeds benignly: used to
evaluate the maintenance handler at one explicit input. -/
def DbMaintenance.okWorld : DbMaintenance.MaintenanceWorld :=
  { perf := .ok { slow_queries := [], database_size_bytes := 0, total_connections := 1,
                  active_connections := 1, idle_connections := 0 }
    stats := .ok { analyzed_tables := [], tables_to_analyze := [] }
    cleanup := .ok { audit_logs_deleted := 0, cache_entries_deleted := 0,
                     jobs_deleted := 0, sessions_deleted := 0 }
    disk := .ok { database_size_bytes := 0, table_size_bytes := [], unused_indexes := [] }
    blocking := .ok { blocking_queries := [], long_queries := [] }
    timestamp := "2026-01-01T00:00:00" }

/-! ## C1 — report task count -/

/-- C1, counterexample: at a fully successful maintenance invocation the
report's total task count is 5, not 6 — the handler appends exactly five
task results (the sixth numbered step, the CloudWatch metric update,
produces no result record). -/
theorem maintenance_total_tasks_not_six :
    ¬ (DbMaintenance.lambda_handler "db" DbMaintenance.okWorld
        (fun _ => .ok ())).report.total_tasks = 6 := by
  decide

/-- C1, amended: for every invocation of the maintenance handler that
reaches report generation, the report's total task count equals 5 (one per
result-producing check), regardless of how many individual tasks failed. -/
theorem maintenance_total_tasks_eq_five (db_instance_id : String)
    (w : DbMaintenance.MaintenanceWorld)
    (put_metric_data : List DbMaintenance.MetricDatum → Except String Unit) :
    (DbMaintenance.lambda_handler db_instance_id w put_metric_data).report.total_tasks = 5 :=
  rfl

/-! ## C2 — overall status -/

/-- C2: the maintenance report's overall status is `"critical"` iff some
task result has critical severity, `"warning"` iff none is critical and
some has warning severity, and `"healthy"` iff neither occurs. -/
theorem maintenance_overall_status_spec (timestamp : String)
    (results : List DbMaintenance.TaskResult) :
    ((DbMaintenance.generate_maintenance_report timestamp results).overall_status = "critical" ↔
      ∃ r ∈ results, r.severity = DbMaintenance.Severity.critical) ∧
    ((DbMaintenance.generate_maintenance_report timestamp results).overall_status = "warning" ↔
      ((¬ ∃ r ∈ results, r.severity = DbMaintenance.Severity.critical) ∧
        ∃ r ∈ results, r.severity = DbMaintenance.Severity.warning)) ∧
    ((DbMaintenance.generate_maintenance_report timestamp results).overall_status = "healthy" ↔
      ((¬ ∃ r ∈ results, r.severity = DbMaintenance.Severity.critical) ∧
        ¬ ∃ r ∈ results, r.severity = DbMaintenance.Severity.warning)) := by
  have hc := filter_ne_nil_iff_exists
    (fun r => decide (r.severity = DbMaintenance.Severity.critical)) results
  have hw := filter_ne_nil_iff_exists
    (fun r => decide (r.severity = DbMaintenance.Severity.warning)) results
  simp only [decide_eq_true_eq] at hc hw
  by_cases h1 : results.filter (fun r => decide (r.severity = DbMaintenance.Severity.critical)) = [] <;>
    by_cases h2 : results.filter (fun r => decide (r.severity = DbMaintenance.Severity.warning)) = [] <;>
      simp [DbMaintenance.generate_maintenance_report, h1, h2, ← hc, ← hw]

/-! ## C5 — per-check failure isolation -/

/-- C5: the maintenance handler's result list always consists of one result
per check, each depending only on that check's own external outcome — so a
check whose external calls raise does not prevent any remaining check from
running — and each check maps a raised error `e` to a result with status
`failed`, severity `critical`, no metrics, and the error recorded. -/
theorem maintenance_failed_check_isolated (db_instance_id : String)
    (w : DbMaintenance.MaintenanceWorld)
    (put_metric_data : List DbMaintenance.MetricDatum → Except String Unit) :
    (DbMaintenance.lambda_handler db_instance_id w put_metric_data).results =
      [DbMaintenance.analyze_database_performance w.perf,
       DbMaintenance.optimize_database_statistics w.stats,
       DbMaintenance.cleanup_old_data w.cleanup,
       DbMaintenance.analyze_disk_usage w.disk,
       DbMaintenance.check_blocking_queries w.blocking] ∧
    (∀ e, DbMaintenance.analyze_database_performance (.error e) =
      { task := "performance_analysis", status := .failed, severity := .critical
        metrics := none, error := some e }) ∧
    (∀ e, DbMaintenance.optimize_database_statistics (.error e) =
      { task := "statistics_optimization", status := .failed, severity := .critical
        metrics := none, error := some e }) ∧
    (∀ e, DbMaintenance.cleanup_old_data (.error e) =
      { task := "data_cleanup", status := .failed, severity := .critical
        metrics := none, error := some e }) ∧
    (∀ e, DbMaintenance.analyze_disk_usage (.error e) =
      { task := "disk_usage_analysis", status := .failed, severity := .critical
        metrics := none, error := some e }) ∧
    (∀ e, DbMaintenance.check_blocking_queries (.error e) =
      { task := "blocking_queries_check", status := .failed, severity := .critical
        metrics := none, error := some e }) :=
  ⟨rfl, fun _ => rfl, fun _ => rfl, fun _ => rfl, fun _ => rfl, fun _ => rfl⟩

/-! ## C10 — metric emission failures swallowed -/

/-- C10: the maintenance handler's response does not depend on the
CloudWatch call's outcome (a metric-emission failure is caught inside
`update_custom_metrics`), failed task results contribute no metrics, and
the metric payload is exactly that of the results that completed and carry
a metrics key. -/
theorem maintenance_metric_failures_swallowed (db_instance_id : String)
    (w : DbMaintenance.MaintenanceWorld)
    (f g : List DbMaintenance.MetricDatum → Except String Unit) :
    DbMaintenance.lambda_handler db_instance_id w f =
      DbMaintenance.lambda_handler db_instance_id w g ∧
    (∀ (r : DbMaintenance.TaskResult) rs, r.status = DbMaintenance.TaskStatus.failed →
      DbMaintenance.custom_metrics_payload db_instance_id (r :: rs) =
        DbMaintenance.custom_metrics_payload db_instance_id rs) ∧
    (∀ rs, DbMaintenance.custom_metrics_payload db_instance_id rs =
      DbMaintenance.custom_metrics_payload db_instance_id
        (rs.filter (fun r =>
          decide (r.status = DbMaintenance.TaskStatus.completed) && r.metrics.isSome))) := by
  refine ⟨rfl, ?_, ?_⟩
  · intro r rs h
    simp [DbMaintenance.custom_metrics_payload, h]
  · intro rs
    induction rs with
    | nil => rfl
    | cons r rest ih =>
      cases hs : r.status <;> cases hm : r.metrics <;>
        simp [DbMaintenance.custom_metrics_payload, List.filter_cons, hs, hm] at * <;>
          exact ih

/-- C10, witness: at one explicit input the handler's response is the same
whether the CloudWatch call succeeds or fails, and a failed result at the
head of the list contributes no metrics. -/
theorem maintenance_metric_failures_swallowed_witness :
    DbMaintenance.lambda_handler "db" DbMaintenance.okWorld (fun _ => .ok ()) =
      DbMaintenance.lambda_handler "db" DbMaintenance.okWorld (fun _ => .error "boom") ∧
    DbMaintenance.custom_metrics_payload "db"
        [{ task := "data_cleanup", status := .failed, severity := .critical
           metrics := none, error := some "e" }] =
      DbMaintenance.custom_metrics_payload "db" [] :=
  ⟨(maintenance_metric_failures_swallowed "db" DbMaintenance.okWorld
      (fun _ => .ok ()) (fun _ => .error "boom")).1,
   (maintenance_metric_failures_swallowed "db" DbMaintenance.okWorld
      (fun _ => .ok ()) (fun _ => .error "boom")).2.1
     { task := "data_cleanup", status := .failed, severity := .critical
       metrics := none, error := some "e" } [] rfl⟩

/-! ## C7 — deploy exit status -/

/-- C7: when `git add -A` succeeded, the deployment runner's `main` returns
1 whenever the push fails; a failed commit alone does not make the run
fail — the run re-queries `git status` and, if the push then succeeds,
returns 0. -/
theorem deploy_push_failure_nonzero (o : DeployRunner.GitOutcomes)
    (hadd : o.add = true) :
    (o.push = false → (DeployRunner.main o).1 = 1) ∧
    (o.commit = false → ("git status", o.status_requery) ∈ (DeployRunner.main o).2) ∧
    (o.push = true → (DeployRunner.main o).1 = 0) := by
  obtain ⟨s1, a, c, s2, p⟩ := o
  cases a <;> cases c <;> cases p <;>
    simp_all [DeployRunner.main]

/-- C7, witness: with status, add and commit succeeding and the push
failing, `main` returns exit status 1. -/
theorem deploy_push_failure_nonzero_witness :
    (DeployRunner.main
      { status_porcelain := true, add := true, commit := true
        status_requery := true, push := false }).1 = 1 :=
  (deploy_push_failure_nonzero
    { status_porcelain := true, add := true, commit := true
      status_requery := true, push := false } rfl).1 rfl

/-! ## C9 — initial status result discarded -/

/-- C9: the outcome of the initial `git status --porcelain` command is
discarded: the exit status and the sequence of commands executed are the
same for every outcome of that command, and the run always proceeds from
the status query directly to the staging step. -/
theorem deploy_status_porcelain_discarded (o : DeployRunner.GitOutcomes) (b : Bool) :
    ((DeployRunner.main { o with status_porcelain := b }).1 = (DeployRunner.main o).1) ∧
    ((DeployRunner.main { o with status_porcelain := b }).2.map Prod.fst =
      (DeployRunner.main o).2.map Prod.fst) ∧
    (((DeployRunner.main o).2.map Prod.fst).take 2 =
      ["git status --porcelain", "git add -A"]) := by
  obtain ⟨s1, a, c, s2, p⟩ := o
  cases a <;> cases c <;> cases p <;>
    simp [DeployRunner.main]

/-! ## C3 — generated password shape -/

/-- C3: whenever the choice oracle picks a member of its candidate list and
the shuffle permutes its argument, `generate_password` returns a password of
length exactly `PASSWORD_LENGTH` (32) containing at least one lowercase
letter, one uppercase letter, one digit, and one symbol of `"!@#$%^&*"`. -/
theorem generate_password_spec (choice : Nat → List Char → Char)
    (shuffle : List Char → List Char)
    (hc : ∀ n l, l ≠ [] → choice n l ∈ l)
    (hs : ∀ l, (shuffle l).Perm l) :
    (RotateSecret.generate_password choice shuffle).length = RotateSecret.PASSWORD_LENGTH ∧
    (∃ c ∈ (RotateSecret.generate_password choice shuffle).data,
        c ∈ RotateSecret.ascii_lowercase) ∧
    (∃ c ∈ (RotateSecret.generate_password choice shuffle).data,
        c ∈ RotateSecret.ascii_uppercase) ∧
    (∃ c ∈ (RotateSecret.generate_password choice shuffle).data,
        c ∈ RotateSecret.string_digits) ∧
    (∃ c ∈ (RotateSecret.generate_password choice shuffle).data,
        c ∈ RotateSecret.password_symbols) := by
  have hperm := hs ([choice 0 RotateSecret.ascii_lowercase,
      choice 1 RotateSecret.ascii_uppercase,
      choice 2 RotateSecret.string_digits,
      choice 3 RotateSecret.password_symbols] ++
    (List.range (RotateSecret.PASSWORD_LENGTH - 4)).map
      (fun i => choice (4 + i) RotateSecret.PASSWORD_CHARSET))
  refine ⟨?_, ?_, ?_, ?_, ?_⟩
  · show (shuffle _).length = RotateSecret.PASSWORD_LENGTH
    rw [hperm.length_eq]
    simp [RotateSecret.PASSWORD_LENGTH]
  · exact ⟨choice 0 RotateSecret.ascii_lowercase,
      hperm.mem_iff.mpr (by simp), hc 0 _ (by decide)⟩
  · exact ⟨choice 1 RotateSecret.ascii_uppercase,
      hperm.mem_iff.mpr (by simp), hc 1 _ (by decide)⟩
  · exact ⟨choice 2 RotateSecret.string_digits,
      hperm.mem_iff.mpr (by simp), hc 2 _ (by decide)⟩
  · exact ⟨choice 3 RotateSecret.password_symbols,
      hperm.mem_iff.mpr (by simp), hc 3 _ (by decide)⟩

/-- C3, witness: with a head-picking oracle and the identity shuffle the
generated password has length 32 and contains all four character classes. -/
theorem generate_password_spec_witness :
    (RotateSecret.generate_password (fun _ l => l.headD 'a') id).length =
      RotateSecret.PASSWORD_LENGTH ∧
    (∃ c ∈ (RotateSecret.generate_password (fun _ l => l.headD 'a') id).data,
        c ∈ RotateSecret.ascii_lowercase) ∧
    (∃ c ∈ (RotateSecret.generate_password (fun _ l => l.headD 'a') id).data,
        c ∈ RotateSecret.ascii_uppercase) ∧
    (∃ c ∈ (RotateSecret.generate_password (fun _ l => l.headD 'a') id).data,
        c ∈ RotateSecret.string_digits) ∧
    (∃ c ∈ (RotateSecret.generate_password (fun _ l => l.headD 'a') id).data,
        c ∈ RotateSecret.password_symbols) :=
  generate_password_spec (fun _ l => l.headD 'a') id
    (fun _ l h => by
      cases l with
      | nil => exact absurd rfl h
      | cons a as => exact List.mem_cons_self a as)
    (fun l => List.Perm.refl l)

/-! ## C4 — createSecret idempotence -/

/-- C4: `create_secret` is idempotent in the request token — once a call
with a given token succeeds, a second call with the same token finds the
pending version for that token and returns without writing, leaving the
store unchanged, so no duplicate pending version is ever produced. -/
theorem create_secret_idempotent (s s₁ : RotateSecret.SecretsStore)
    (token p p' : String)
    (h : RotateSecret.create_secret s token p = .ok s₁) :
    RotateSecret.create_secret s₁ token p' = .ok s₁ := by
  unfold RotateSecret.create_secret at h ⊢
  cases hg : RotateSecret.get_secret_value_by_id_stage s token "AWSPENDING" with
  | some v =>
    rw [hg] at h
    cases h
    rw [hg]
  | none =>
    rw [hg] at h
    cases hcur : RotateSecret.get_secret_value_by_stage s "AWSCURRENT" with
    | none =>
      rw [hcur] at h
      cases h
    | some cur =>
      rw [hcur] at h
      injection h with h'
      subst h'
      have hfind : RotateSecret.get_secret_value_by_id_stage
          (RotateSecret.put_secret_value s token
            (RotateSecret.setField cur.secretString "password" p)) token "AWSPENDING" =
          some { versionId := token, stages := ["AWSPENDING"]
                 secretString := RotateSecret.setField cur.secretString "password" p } := by
        simp [RotateSecret.get_secret_value_by_id_stage, RotateSecret.put_secret_value,
          List.find?]
      rw [hfind]

/-- C4, witness: after creating a pending version for token `"tok"` on a
store with one current version, a second `create_secret` call with `"tok"`
returns the store unchanged. -/
theorem create_secret_idempotent_witness :
    RotateSecret.create_secret
      (RotateSecret.SecretsStore.mk
        [{ versionId := "tok", stages := ["AWSPENDING"]
           secretString := [("username", "u"), ("password", "newpw")] },
         { versionId := "v1", stages := ["AWSCURRENT"]
           secretString := [("username", "u"), ("password", "old")] }]) "tok" "p2" =
      .ok (RotateSecret.SecretsStore.mk
        [{ versionId := "tok", stages := ["AWSPENDING"]
           secretString := [("username", "u"), ("password", "newpw")] },
         { versionId := "v1", stages := ["AWSCURRENT"]
           secretString := [("username", "u"), ("password", "old")] }]) :=
  create_secret_idempotent
    (RotateSecret.SecretsStore.mk
      [{ versionId := "v1", stages := ["AWSCURRENT"]
         secretString := [("username", "u"), ("password", "old")] }])
    _ "tok" "newpw" "p2" rfl

/-! ## C8 — engine dispatch defaults -/

/-- C8: when the pending and current versions resolve, `set_secret` and
`test_secret` dispatch through `choose_engine_routine` on the current and
pending record respectively; with no `'engine'` key each defaults to the
PostgreSQL routine (no unsupported-engine error), and the dispatch returns
an error only when an `'engine'` key is present whose value is none of
`'postgres'`, `'postgresql'`, `'mysql'` — and then the error is the
unsupported-engine message for that value. -/
theorem engine_dispatch_spec (s : RotateSecret.SecretsStore) (token : String)
    (pending current : RotateSecret.SecretVersion)
    (hp : RotateSecret.get_secret_value_by_id_stage s token "AWSPENDING" = some pending)
    (hcur : RotateSecret.get_secret_value_by_stage s "AWSCURRENT" = some current) :
    RotateSecret.set_secret s token =
      RotateSecret.choose_engine_routine current.secretString ∧
    RotateSecret.test_secret s token =
      RotateSecret.choose_engine_routine pending.secretString ∧
    (RotateSecret.lookupField current.secretString "engine" = none →
      RotateSecret.set_secret s token = .ok RotateSecret.DbRoutine.postgres) ∧
    (RotateSecret.lookupField pending.secretString "engine" = none →
      RotateSecret.test_secret s token = .ok RotateSecret.DbRoutine.postgres) ∧
    (∀ (d : List (String × String)) (e : String),
      RotateSecret.choose_engine_routine d = .error e →
        ∃ eng, RotateSecret.lookupField d "engine" = some eng ∧
          e = "Unsupported database engine: " ++ eng ∧
          eng ≠ "postgres" ∧ eng ≠ "postgresql" ∧ eng ≠ "mysql") := by
  have hset : RotateSecret.set_secret s token =
      RotateSecret.choose_engine_routine current.secretString := by
    unfold RotateSecret.set_secret
    rw [hp, hcur]
  have htest : RotateSecret.test_secret s token =
      RotateSecret.choose_engine_routine pending.secretString := by
    unfold RotateSecret.test_secret
    rw [hp]
  refine ⟨hset, htest, ?_, ?_, ?_⟩
  · intro hnone
    rw [hset]
    unfold RotateSecret.choose_engine_routine
    rw [hnone]
  · intro hnone
    rw [htest]
    unfold RotateSecret.choose_engine_routine
    rw [hnone]
  · intro d e herr
    unfold RotateSecret.choose_engine_routine at herr
    cases hl : RotateSecret.lookupField d "engine" with
    | none =>
      rw [hl] at herr
      cases herr
    | some eng =>
      rw [hl] at herr
      dsimp only at herr
      split_ifs at herr with h1 h2
      push_neg at h1
      injection herr with herr'
      exact ⟨eng, rfl, herr'.symm, h1.1, h1.2, h2⟩

/-- C8, witness: on a store whose current and pending records carry no
`'engine'` key, `set_secret` and `test_secret` both select the PostgreSQL
routine. -/
theorem engine_dispatch_spec_witness :
    RotateSecret.set_secret
      (RotateSecret.SecretsStore.mk
        [{ versionId := "tok", stages := ["AWSPENDING"]
           secretString := [("username", "u"), ("password", "new")] },
         { versionId := "v1", stages := ["AWSCURRENT"]
           secretString := [("username", "u"), ("password", "old")] }]) "tok" =
      .ok RotateSecret.DbRoutine.postgres ∧
    RotateSecret.test_secret
      (RotateSecret.SecretsStore.mk
        [{ versionId := "tok", stages := ["AWSPENDING"]
           secretString := [("username", "u"), ("password", "new")] },
         { versionId := "v1", stages := ["AWSCURRENT"]
           secretString := [("username", "u"), ("password", "old")] }]) "tok" =
      .ok RotateSecret.DbRoutine.postgres :=
  ⟨(engine_dispatch_spec
      (RotateSecret.SecretsStore.mk
        [{ versionId := "tok", stages := ["AWSPENDING"]
           secretString := [("username", "u"), ("password", "new")] },
         { versionId := "v1", stages := ["AWSCURRENT"]
           secretString := [("username", "u"), ("password", "old")] }]) "tok"
      { versionId := "tok", stages := ["AWSPENDING"]
        secretString := [("username", "u"), ("password", "new")] }
      { versionId := "v1", stages := ["AWSCURRENT"]
        secretString := [("username", "u"), ("password", "old")] }
      rfl rfl).2.2.1 rfl,
   (engine_dispatch_spec
      (RotateSecret.SecretsStore.mk
        [{ versionId := "tok", stages := ["AWSPENDING"]
           secretString := [("username", "u"), ("password", "new")] },
         { versionId := "v1", stages := ["AWSCURRENT"]
           secretString := [("username", "u"), ("password", "old")] }]) "tok"
      { versionId := "tok", stages := ["AWSPENDING"]
        secretString := [("username", "u"), ("password", "new")] }
      { versionId := "v1", stages := ["AWSCURRENT"]
        secretString := [("username", "u"), ("password", "old")] }
      rfl rfl).2.2.2.1 rfl⟩

/-! ## C6 — finishSecret can never relabel a version -/

/-- C6: `finish_secret` as written never succeeds — for every store and
request token it returns an error: either the current-version lookup fails,
or boto3 rejects the unknown `ClientRequestToken` parameter of
`update_secret_version_stage` with `ParamValidationError` before any stage
is moved.  In particular it fails on a well-formed two-version store
(current `v1`, pending `v2`) with token `"v2"`, where the rotation
protocol expects the pending version to be promoted. -/
theorem finish_secret_never_succeeds :
    (∀ (s : RotateSecret.SecretsStore) (token : String),
      ∃ e, RotateSecret.finish_secret s token = .error e) ∧
    RotateSecret.finish_secret
      (RotateSecret.SecretsStore.mk
        [{ versionId := "v1", stages := ["AWSCURRENT"], secretString := [] },
         { versionId := "v2", stages := ["AWSPENDING"], secretString := [] }]) "v2" =
      .error "ParamValidationError: Unknown parameter in input: ClientRequestToken" := by
  constructor
  · intro s token
    unfold RotateSecret.finish_secret
    cases RotateSecret.get_current_version_id s with
    | error e => exact ⟨e, rfl⟩
    | ok cur => exact ⟨_, rfl⟩
  · rfl
